import Mathlib

/-!
Verification of the caching/invalidation behaviour of
`resources/lib/api/shakti.py` from plugin.video.netflix.

The module under verification wraps remote ("Shakti") API producers with a
cache decorator and performs explicit cache invalidation at mutation call
sites.  We embed:

* the cache-bucket constants and the registration data of every
  `@cache.cache_output(...)` decorator appearing in the module;
* the key builder of the cache subsystem (the `cache` module itself is not
  part of the sources, so the key builder is modelled from the spec);
* the mutating operations (`activate_profile`, `login`, `logout`, `rate`,
  `add_to_list` / `remove_from_list` via `_update_my_list`) as functions
  producing a trace of cache/remote effects together with an
  `Except`-style outcome;
* `list_id_for_type` and `episode_metadata` with their error handling.
-/

/-- Cache bucket constants, as referenced from `shakti.py`
(`cache.CACHE_COMMON`, `cache.CACHE_VIDEO_LIST`, `cache.CACHE_SEASONS`,
`cache.CACHE_EPISODES`, `cache.CACHE_METADATA`). -/
inductive Bucket
  | CACHE_COMMON
  | CACHE_VIDEO_LIST
  | CACHE_SEASONS
  | CACHE_EPISODES
  | CACHE_METADATA
deriving DecidableEq, Repr

open Bucket

/-- Observable effects performed by the operations of `shakti.py`:
a remote call (`common.make_call(NetflixSession.post/…)`, identified by its
component name), a whole-cache wipe (`cache.invalidate_cache()`), a
single-entry invalidation (`cache.invalidate_entry(bucket, key)`), and the
last-location marker invalidation (`cache.invalidate_last_location()`). -/
inductive Effect
  | makeCall (component : String)
  | invalidateCache
  | invalidateEntry (bucket : Bucket) (key : String)
  | invalidateLastLocation
deriving DecidableEq, Repr

/-- Errors surfaced by the embedded operations: the module's own
`InvalidVideoListTypeError` (with its message), and a failure of the remote
call itself (an exception propagating out of `common.make_call`). -/
inductive ApiError
  | InvalidVideoListTypeError (msg : String)
  | remoteCallError
deriving DecidableEq, Repr

/-- Whether an effect is one of the cache-invalidation operations. -/
def Effect.isInvalidation : Effect → Bool
  | Effect.makeCall _ => false
  | Effect.invalidateCache => true
  | Effect.invalidateEntry _ _ => true
  | Effect.invalidateLastLocation => true

/-- The cache-invalidation effects of a trace, in order. -/
def invalidationsOf (t : List Effect) : List Effect :=
  t.filter Effect.isInvalidation

/-- Environment a call of `shakti.py` runs in: the lists reachable from the
root LoLoMo as `(list_id, context)` pairs (in the order `lists_by_context`
enumerates them), the addon setting
`ADDON.getSettingBool('invalidate_cache_on_mylist_modify')`, and whether the
remote call issued by the operation succeeds. -/
structure ShaktiEnv where
  rootListsData : List (String × String)
  invalidate_cache_on_mylist_modify : Bool
  postOk : Bool
deriving DecidableEq, Repr

/-- Embedding of `list_id_for_type(list_type)`: takes the first list whose
context equals `list_type` from the root lists
(`next(root_lists().lists_by_context(list_type))[0]`); when the generator is
exhausted (`StopIteration`) it raises `InvalidVideoListTypeError`.
`LoLoMo.lists_by_context` lives in `data_types.py`, which is not among the
sources; modelled from the spec as the subsequence of root lists whose
context matches. -/
def list_id_for_type (env : ShaktiEnv) (list_type : String) :
    Except ApiError String :=
  match env.rootListsData.filter (fun p => p.2 == list_type) with
  | [] => Except.error (ApiError.InvalidVideoListTypeError
      ("No lists of type " ++ list_type ++ " available"))
  | p :: _ => Except.ok p.1

/-- Embedding of `activate_profile(profile_id)`: invalidates the whole cache,
then makes the remote call. -/
def activate_profile (env : ShaktiEnv) (_profile_id : String) :
    List Effect × Except ApiError Unit :=
  ([Effect.invalidateCache, Effect.makeCall "activate_profile"],
   if env.postOk then Except.ok () else Except.error ApiError.remoteCallError)

/-- Embedding of `logout()`: invalidates the whole cache, then makes the
remote call. -/
def logout (env : ShaktiEnv) : List Effect × Except ApiError Unit :=
  ([Effect.invalidateCache, Effect.makeCall "logout"],
   if env.postOk then Except.ok () else Except.error ApiError.remoteCallError)

/-- Embedding of `login()`: invalidates the whole cache, then makes the
remote call. -/
def login (env : ShaktiEnv) : List Effect × Except ApiError Unit :=
  ([Effect.invalidateCache, Effect.makeCall "login"],
   if env.postOk then Except.ok () else Except.error ApiError.remoteCallError)

/-- The rating value transmitted by `rate`:
`rating = min(10, max(0, rating)) / 2` — Python 2 integer division for
integer inputs (the module targets Python 2: `from __future__ import
unicode_literals` without `division`). -/
def rate_transmitted_rating (rating : Int) : Int :=
  min 10 (max 0 rating) / 2

/-- Embedding of `rate(video_id, rating)`: clamps and halves the rating and
posts it; performs no cache invalidation. -/
def rate (env : ShaktiEnv) (_video_id : Int) (_rating : Int) :
    List Effect × Except ApiError Unit :=
  ([Effect.makeCall "set_video_rating"],
   if env.postOk then Except.ok () else Except.error ApiError.remoteCallError)

/-- Embedding of `_update_my_list(video_id, operation)`: posts the
`update_my_list` component; on success, either wipes the whole cache (when
the `invalidate_cache_on_mylist_modify` setting is on) or invalidates the
last-location marker, the video-list entry for the resolved 'queue' list id,
and the common-bucket entries 'queue' and 'root_lists'.  Python evaluates
`list_id_for_type('queue')` before `cache.invalidate_entry(...)`, so when
resolution raises, that entry invalidation and the two common-bucket ones
are skipped and the exception propagates. -/
def _update_my_list (env : ShaktiEnv) (_video_id : Int) (_operation : String) :
    List Effect × Except ApiError Unit :=
  if env.postOk = false then
    ([Effect.makeCall "update_my_list"], Except.error ApiError.remoteCallError)
  else if env.invalidate_cache_on_mylist_modify then
    ([Effect.makeCall "update_my_list", Effect.invalidateCache], Except.ok ())
  else
    match list_id_for_type env "queue" with
    | Except.error e =>
        ([Effect.makeCall "update_my_list", Effect.invalidateLastLocation],
         Except.error e)
    | Except.ok queue_list_id =>
        ([Effect.makeCall "update_my_list", Effect.invalidateLastLocation,
          Effect.invalidateEntry CACHE_VIDEO_LIST queue_list_id,
          Effect.invalidateEntry CACHE_COMMON "queue",
          Effect.invalidateEntry CACHE_COMMON "root_lists"],
         Except.ok ())

/-- Embedding of `add_to_list(video_id)`. -/
def add_to_list (env : ShaktiEnv) (video_id : Int) :
    List Effect × Except ApiError Unit :=
  _update_my_list env video_id "add"

/-- Embedding of `remove_from_list(video_id)`. -/
def remove_from_list (env : ShaktiEnv) (video_id : Int) :
    List Effect × Except ApiError Unit :=
  _update_my_list env video_id "remove"

/-- Modelled from the spec: the cache key type of the cache subsystem
(the `cache` module is not among the sources).  Per the spec, a key with a
fixed identifier is the pair `(bucket, fixed_identifier)`; otherwise the key
combines the bucket, the operation identity, and the value of the single
designated argument. -/
inductive CacheKey
  | fixedKey (bucket : Bucket) (fixedIdentifier : String)
  | argKey (bucket : Bucket) (operationId : String) (identValue : Option String)
deriving DecidableEq, Repr

/-- Modelled from the spec: `build_key(bucket, operation_id, args,
fixed_identifier)` of the Key Builder (the `cache` module is not among the
sources).  If `fixed_identifier` is supplied the key is
`(bucket, fixed_identifier)`; otherwise it selects the designated argument
position `pos` from `args` and combines it with the bucket and the operation
identity, ignoring all other arguments. -/
def build_key (bucket : Bucket) (operation_id : String) (args : List String)
    (pos : Nat) (fixed_identifier : Option String) : CacheKey :=
  match fixed_identifier with
  | some fid => CacheKey.fixedKey bucket fid
  | none => CacheKey.argKey bucket operation_id (args.get? pos)

/-- Registration data of one `@cache.cache_output(...)` decoration in
`shakti.py`: the operation name, the bucket, the positional index and name of
the identifying argument (absent for fixed-identifier registrations), the
fixed identifier if any, whether an explicit per-call `ttl=` override is
passed, and whether `to_disk=True` is passed. -/
structure CachedCall where
  opName : String
  bucket : Bucket
  identifyingIndex : Option Nat
  identifyingName : Option String
  fixedIdentifier : Option String
  hasTtlOverride : Bool
  to_disk : Bool
deriving DecidableEq, Repr

/-- The `@cache.cache_output(cache.CACHE_COMMON,
fixed_identifier='root_lists')` registration of `root_lists`. -/
def root_lists_registration : CachedCall :=
  ⟨"root_lists", CACHE_COMMON, none, none, some "root_lists", false, false⟩

/-- The `@cache.cache_output(cache.CACHE_COMMON, 0, 'list_type')`
registration of `list_id_for_type`. -/
def list_id_for_type_registration : CachedCall :=
  ⟨"list_id_for_type", CACHE_COMMON, some 0, some "list_type", none,
   false, false⟩

/-- The `@cache.cache_output(cache.CACHE_VIDEO_LIST, 0, 'list_id')`
registration of `video_list`. -/
def video_list_registration : CachedCall :=
  ⟨"video_list", CACHE_VIDEO_LIST, some 0, some "list_id", none, false, false⟩

/-- The `@cache.cache_output(cache.CACHE_SEASONS, 0, 'tvshow_id')`
registration of `seasons`. -/
def seasons_registration : CachedCall :=
  ⟨"seasons", CACHE_SEASONS, some 0, some "tvshow_id", none, false, false⟩

/-- The `@cache.cache_output(cache.CACHE_EPISODES, 1, 'season_id')`
registration of `episodes`. -/
def episodes_registration : CachedCall :=
  ⟨"episodes", CACHE_EPISODES, some 1, some "season_id", none, false, false⟩

/-- The `@cache.cache_output(cache.CACHE_EPISODES, 1, 'episode_id')`
registration of `episode`. -/
def episode_registration : CachedCall :=
  ⟨"episode", CACHE_EPISODES, some 1, some "episode_id", none, false, false⟩

/-- The `@cache.cache_output(cache.CACHE_EPISODES, 0, 'movie_id')`
registration of `movie`. -/
def movie_registration : CachedCall :=
  ⟨"movie", CACHE_EPISODES, some 0, some "movie_id", none, false, false⟩

/-- The `@cache.cache_output(cache.CACHE_METADATA, 0, 'video_id',
ttl=common.CACHE_METADATA_TTL, to_disk=True)` registration of `metadata`. -/
def metadata_registration : CachedCall :=
  ⟨"metadata", CACHE_METADATA, some 0, some "video_id", none, true, true⟩

/-- All cached operations of `shakti.py`, in source order. -/
def shaktiCachedCalls : List CachedCall :=
  [root_lists_registration, list_id_for_type_registration,
   video_list_registration, seasons_registration, episodes_registration,
   episode_registration, movie_registration, metadata_registration]

/-- The cache key computed for a call of a registered operation, per the
spec's Key Builder contract: the fixed identifier wins when present,
otherwise the designated positional argument (position 0 when the
registration has none, which does not occur among fixed-identifier-free
registrations here). -/
def keyOfCall (c : CachedCall) (args : List String) : CacheKey :=
  build_key c.bucket c.opName args (c.identifyingIndex.getD 0)
    c.fixedIdentifier

/-- The cache key of a call `episodes(tvshow_id, season_id)`. -/
def episodes_cache_key (tvshow_id season_id : String) : CacheKey :=
  keyOfCall episodes_registration [tvshow_id, season_id]

/-- The cache key of a call `root_lists()`. -/
def root_lists_cache_key : CacheKey :=
  keyOfCall root_lists_registration []

/-- Opaque per-episode metadata payload returned by the metadata API. -/
structure EpisodeMeta where
  payload : String
deriving DecidableEq, Repr

/-- A season object inside the metadata aggregate: its 'episodes' dict,
keyed by episode id (`none` models the key being absent). -/
structure SeasonMeta where
  episodes : Option (List (String × EpisodeMeta))
deriving DecidableEq, Repr

/-- The metadata aggregate for a video as returned by
`metadata(video_id)`: its 'seasons' dict, keyed by season id (`none` models
the key being absent, so that `['seasons']` raises `KeyError`). -/
structure VideoMeta where
  seasons : Option (List (String × SeasonMeta))
deriving DecidableEq, Repr

/-- Python `d.get(k, default-absent)` on a string-keyed dict. -/
def dictGet {α : Type} (d : List (String × α)) (k : String) : Option α :=
  (d.find? (fun p => p.1 == k)).map (fun p => p.2)

/-- Environment of the metadata calls: the aggregate the remote service
currently returns for each video id. -/
structure MetaEnv where
  remote : String → VideoMeta

/-- Embedding of the cached `metadata(video_id)` call for one video id:
given the current cache entry for that id, return the value served, the
cache entry afterwards, and how many producer (remote) calls were made
(0 on a hit, 1 on a miss). -/
def metadata (env : MetaEnv) (cacheEntry : Option VideoMeta)
    (video_id : String) : VideoMeta × Option VideoMeta × Nat :=
  match cacheEntry with
  | some v => (v, some v, 0)
  | none => (env.remote video_id, some (env.remote video_id), 1)

/-- Modelled from the spec: `common.find_episode(episodeid, seasons)`
(`common.py` is not among the sources) — the lookup of one episode inside
the seasons of the cached metadata aggregate, which fails with `KeyError`
(here `none`) when the episode is not present in any season. -/
def find_episode (episodeid : String)
    (seasons : List (String × SeasonMeta)) : Option EpisodeMeta :=
  match seasons with
  | [] => none
  | (_, s) :: rest =>
    match dictGet (s.episodes.getD []) episodeid with
    | some ep => some ep
    | none => find_episode episodeid rest

/-- The first, optimistic lookup of `episode_metadata`:
`common.find_episode(episodeid, metadata(tvshowid)['seasons'])`, where a
missing 'seasons' key or a failing `find_episode` is a `KeyError` (`none`). -/
def episodeLookup (v : VideoMeta) (episodeid : String) : Option EpisodeMeta :=
  match v.seasons with
  | none => none
  | some ss => find_episode episodeid ss

/-- The safe fallback lookup of `episode_metadata`:
`metadata(tvshowid).get('seasons', {}).get(seasonid, {})
.get('episodes', {}).get(episodeid, {})` — every missing key yields the
empty dict, so the chain yields `none` instead of raising. -/
def safeEpisodeLookup (v : VideoMeta) (seasonid episodeid : String) :
    Option EpisodeMeta :=
  match dictGet (v.seasons.getD []) seasonid with
  | none => none
  | some s => dictGet (s.episodes.getD []) episodeid

/-- Result of a call to `episode_metadata`: the value returned (`none` is
the empty-dict fallback), the metadata cache entry for the show afterwards,
the number of remote metadata fetches made, and the number of times the
stale-cache recovery path (invalidate + refetch) ran. -/
structure EpisodeMetadataResult where
  result : Option EpisodeMeta
  cacheAfter : Option VideoMeta
  fetches : Nat
  recoveries : Nat
deriving DecidableEq, Repr

/-- Embedding of `episode_metadata(tvshowid, seasonid, episodeid)`: look the
episode up in the (possibly cached) aggregate; on `KeyError`, invalidate the
aggregate's cache entry (`cache.invalidate_entry(cache.CACHE_METADATA,
tvshowid)`), refetch it, and fall back to the safe chained lookup. -/
def episode_metadata (env : MetaEnv) (cacheEntry : Option VideoMeta)
    (tvshowid seasonid episodeid : String) : EpisodeMetadataResult :=
  match episodeLookup (metadata env cacheEntry tvshowid).1 episodeid with
  | some ep =>
      ⟨some ep, (metadata env cacheEntry tvshowid).2.1,
       (metadata env cacheEntry tvshowid).2.2, 0⟩
  | none =>
      ⟨safeEpisodeLookup (metadata env none tvshowid).1 seasonid episodeid,
       (metadata env none tvshowid).2.1,
       (metadata env cacheEntry tvshowid).2.2 + (metadata env none tvshowid).2.2,
       1⟩

/-- C4: `list_id_for_type(list_type)` raises `InvalidVideoListTypeError`
when the root lists contain no list whose context matches `list_type`; it
never returns an identifier in that case, and when a matching list exists it
returns the id of the first matching list. -/
theorem list_id_for_type_spec : ∀ (env : ShaktiEnv) (list_type : String),
    (env.rootListsData.filter (fun p => p.2 == list_type) = [] →
      list_id_for_type env list_type =
        Except.error (ApiError.InvalidVideoListTypeError
          ("No lists of type " ++ list_type ++ " available"))) ∧
    (∀ (list_id context : String) (rest : List (String × String)),
      env.rootListsData.filter (fun p => p.2 == list_type) =
        (list_id, context) :: rest →
      list_id_for_type env list_type = Except.ok list_id) ∧
    (∀ s, list_id_for_type env list_type = Except.ok s →
      ∃ rest, env.rootListsData.filter (fun p => p.2 == list_type) =
        (s, list_type) :: rest) := by
  intro env list_type
  refine ⟨?_, ?_, ?_⟩
  · intro h
    simp [list_id_for_type, h]
  · intro list_id context rest h
    simp [list_id_for_type, h]
  · intro s hs
    unfold list_id_for_type at hs
    cases h : env.rootListsData.filter (fun p => p.2 == list_type) with
    | nil => rw [h] at hs; exact absurd hs (by simp)
    | cons p rest =>
      rw [h] at hs
      have hps : p.1 = s := by
        simpa using hs
      have hmem : p ∈ env.rootListsData.filter (fun p => p.2 == list_type) := by
        rw [h]; exact List.mem_cons_self p rest
      have hctx : p.2 = list_type := by
        have := List.of_mem_filter hmem
        simpa using this
      refine ⟨rest, ?_⟩
      congr 1
      exact Prod.ext hps hctx

/-- C4 witness: with no 'queue' list the call fails with the named error;
with one it returns that list's id. -/
theorem list_id_for_type_spec_witness :
    list_id_for_type ⟨[], false, true⟩ "queue" =
      Except.error (ApiError.InvalidVideoListTypeError
        ("No lists of type " ++ "queue" ++ " available")) ∧
    list_id_for_type ⟨[("queue-id", "queue")], false, true⟩ "queue" =
      Except.ok "queue-id" :=
  ⟨(list_id_for_type_spec ⟨[], false, true⟩ "queue").1 rfl,
   (list_id_for_type_spec ⟨[("queue-id", "queue")], false, true⟩ "queue").2.1
     "queue-id" "queue" [] rfl⟩

/-- C5: the key builder ignores non-designated arguments — two calls with
equal designated-argument values compute the same key whatever the other
arguments are; in particular two `episodes` calls with the same `season_id`
(designated position 1) but different `tvshow_id` share one cache key. -/
theorem cache_key_ignores_non_designated_args :
    (∀ (bucket : Bucket) (op : String) (pos : Nat) (fixed : Option String)
       (args1 args2 : List String),
       args1.get? pos = args2.get? pos →
       build_key bucket op args1 pos fixed =
         build_key bucket op args2 pos fixed) ∧
    (∀ tvshow_id1 tvshow_id2 season_id : String,
       episodes_cache_key tvshow_id1 season_id =
         episodes_cache_key tvshow_id2 season_id) := by
  constructor
  · intro bucket op pos fixed args1 args2 h
    cases fixed with
    | some fid => rfl
    | none => exact congrArg (CacheKey.argKey bucket op) h
  · intro t1 t2 s
    rfl

/-- C5 witness: instantiation at concrete argument lists and at two
`episodes` calls differing only in `tvshow_id`. -/
theorem cache_key_ignores_non_designated_args_witness :
    build_key CACHE_EPISODES "episodes" ["showA", "s7"] 1 none =
      build_key CACHE_EPISODES "episodes" ["showB", "s7"] 1 none ∧
    episodes_cache_key "showA" "s7" = episodes_cache_key "showB" "s7" :=
  ⟨cache_key_ignores_non_designated_args.1 CACHE_EPISODES "episodes" 1 none
     ["showA", "s7"] ["showB", "s7"] rfl,
   cache_key_ignores_non_designated_args.2 "showA" "showB" "s7"⟩

/-- C6: `root_lists` is registered in the common bucket with fixed
identifier 'root_lists', so every call — whatever the argument list — maps
to the single cache key `(CACHE_COMMON, 'root_lists')`. -/
theorem root_lists_single_fixed_key : ∀ args : List String,
    keyOfCall root_lists_registration args =
      CacheKey.fixedKey CACHE_COMMON "root_lists" ∧
    root_lists_registration.bucket = CACHE_COMMON ∧
    root_lists_registration.fixedIdentifier = some "root_lists" ∧
    root_lists_cache_key = CacheKey.fixedKey CACHE_COMMON "root_lists" := by
  intro args
  exact ⟨rfl, rfl, rfl, rfl⟩

/-- C7: among the cached operations of the module, exactly `metadata`
passes an explicit per-call TTL and the disk-tier flag; every other
registration has neither. -/
theorem metadata_only_ttl_and_disk :
    shaktiCachedCalls.filter (fun c => c.hasTtlOverride || c.to_disk) =
      [metadata_registration] ∧
    metadata_registration.hasTtlOverride = true ∧
    metadata_registration.to_disk = true ∧
    (shaktiCachedCalls.filter
        (fun c => !c.hasTtlOverride && !c.to_disk)).map CachedCall.opName =
      ["root_lists", "list_id_for_type", "video_list", "seasons",
       "episodes", "episode", "movie"] :=
  ⟨rfl, rfl, rfl, rfl⟩

/-- C10: the transmitted rating is the floor of half the value clamped to
`[0, 10]` (Python 2 integer division), hence an integer in `[0, 5]`; no
half-step value arises from an integer input. -/
theorem rate_transmitted_rating_floor : ∀ r : Int,
    0 ≤ rate_transmitted_rating r ∧ rate_transmitted_rating r ≤ 5 ∧
    2 * rate_transmitted_rating r ≤ min 10 (max 0 r) ∧
    min 10 (max 0 r) < 2 * rate_transmitted_rating r + 2 := by
  intro r
  unfold rate_transmitted_rating
  have h0 : 0 ≤ min 10 (max 0 r) :=
    le_min (by norm_num) (le_max_left 0 r)
  have h10 : min 10 (max 0 r) ≤ 10 := min_le_left _ _
  revert h0 h10
  generalize min 10 (max 0 r) = w
  intro h0 h10
  interval_cases w <;> refine ⟨by decide, by decide, by decide, by decide⟩

/-- C1 counterexample: on the selective path (setting off, post succeeded,
'queue' resolvable) the invalidations of `_update_my_list` are not just one
video-list entry plus one common-bucket entry — the trace also invalidates
the last-location marker and a second common-bucket entry. -/
theorem update_my_list_selective_not_two_entries :
    ¬ ∃ (vkey ckey : String),
        invalidationsOf
            (_update_my_list ⟨[("mylist-id", "queue")], false, true⟩ 1 "add").1 =
          [Effect.invalidateEntry CACHE_VIDEO_LIST vkey,
           Effect.invalidateEntry CACHE_COMMON ckey] := by
  rintro ⟨vkey, ckey, h⟩
  have hcomp : invalidationsOf
      (_update_my_list ⟨[("mylist-id", "queue")], false, true⟩ 1 "add").1 =
      [Effect.invalidateLastLocation,
       Effect.invalidateEntry CACHE_VIDEO_LIST "mylist-id",
       Effect.invalidateEntry CACHE_COMMON "queue",
       Effect.invalidateEntry CACHE_COMMON "root_lists"] := rfl
  rw [hcomp] at h
  simp at h

/-- C1 amended: after a successful post, `_update_my_list` wipes the whole
cache when `invalidate_cache_on_mylist_modify` is set; otherwise (when the
'queue' list id resolves) it invalidates, in order, the last-location
marker, the video-list entry for the 'queue' list id, and the two
common-bucket entries 'queue' and 'root_lists', and nothing else. -/
theorem update_my_list_invalidation_scope :
    ∀ (env : ShaktiEnv) (vid : Int) (op : String),
    env.postOk = true →
    (env.invalidate_cache_on_mylist_modify = true →
      invalidationsOf (_update_my_list env vid op).1 =
        [Effect.invalidateCache]) ∧
    (env.invalidate_cache_on_mylist_modify = false →
      ∀ qid, list_id_for_type env "queue" = Except.ok qid →
        invalidationsOf (_update_my_list env vid op).1 =
          [Effect.invalidateLastLocation,
           Effect.invalidateEntry CACHE_VIDEO_LIST qid,
           Effect.invalidateEntry CACHE_COMMON "queue",
           Effect.invalidateEntry CACHE_COMMON "root_lists"]) := by
  intro env vid op hpost
  constructor
  · intro hflag
    simp [_update_my_list, hpost, hflag, invalidationsOf, Effect.isInvalidation]
  · intro hflag qid hq
    simp [_update_my_list, hpost, hflag, hq, invalidationsOf,
      Effect.isInvalidation]

/-- C1 amended witness: both branches evaluated at concrete environments. -/
theorem update_my_list_invalidation_scope_witness :
    invalidationsOf
        (_update_my_list ⟨[("mylist-id", "queue")], true, true⟩ 1 "add").1 =
      [Effect.invalidateCache] ∧
    invalidationsOf
        (_update_my_list ⟨[("mylist-id", "queue")], false, true⟩ 1 "add").1 =
      [Effect.invalidateLastLocation,
       Effect.invalidateEntry CACHE_VIDEO_LIST "mylist-id",
       Effect.invalidateEntry CACHE_COMMON "queue",
       Effect.invalidateEntry CACHE_COMMON "root_lists"] :=
  ⟨(update_my_list_invalidation_scope ⟨[("mylist-id", "queue")], true, true⟩
      1 "add" rfl).1 rfl,
   (update_my_list_invalidation_scope ⟨[("mylist-id", "queue")], false, true⟩
      1 "add" rfl).2 rfl "mylist-id" rfl⟩

/-- C3 counterexample: `rate` changes remote state but performs no cache
invalidation at all, and `activate_profile` performs its whole-cache
invalidation before the remote call, so the invalidation happens even when
the remote call fails. -/
theorem mutation_invalidation_counterexample :
    invalidationsOf (rate ⟨[], false, true⟩ 1 10).1 = [] ∧
    Effect.invalidateCache ∈ (activate_profile ⟨[], false, false⟩ "p1").1 ∧
    (activate_profile ⟨[], false, false⟩ "p1").2 =
      Except.error ApiError.remoteCallError := by
  refine ⟨rfl, ?_, rfl⟩
  simp [activate_profile]

/-- C3 amended: `activate_profile`, `login` and `logout` invalidate the
entire cache before issuing the remote call (so the wipe happens whether or
not the call succeeds); `rate` performs no invalidation; `_update_my_list`
(hence `add_to_list` / `remove_from_list`) invalidates only after its post
succeeds, with the post first in its trace. -/
theorem mutation_invalidation_placement :
    ∀ (env : ShaktiEnv) (pid : String) (vid r : Int) (op : String),
    (activate_profile env pid).1 =
      [Effect.invalidateCache, Effect.makeCall "activate_profile"] ∧
    (login env).1 = [Effect.invalidateCache, Effect.makeCall "login"] ∧
    (logout env).1 = [Effect.invalidateCache, Effect.makeCall "logout"] ∧
    invalidationsOf (rate env vid r).1 = [] ∧
    (env.postOk = false →
      invalidationsOf (_update_my_list env vid op).1 = []) ∧
    (env.postOk = true →
      invalidationsOf (_update_my_list env vid op).1 ≠ [] ∧
      (_update_my_list env vid op).1.head? =
        some (Effect.makeCall "update_my_list")) := by
  intro env pid vid r op
  refine ⟨rfl, rfl, rfl, rfl, ?_, ?_⟩
  · intro h
    simp [_update_my_list, h, invalidationsOf, Effect.isInvalidation]
  · intro h
    cases hf : env.invalidate_cache_on_mylist_modify
    · cases hq : list_id_for_type env "queue" <;>
        simp [_update_my_list, h, hf, hq, invalidationsOf,
          Effect.isInvalidation]
    · simp [_update_my_list, h, hf, invalidationsOf, Effect.isInvalidation]

/-- C3 amended witness: instantiation at a failing-post environment and a
succeeding-post environment. -/
theorem mutation_invalidation_placement_witness :
    invalidationsOf (_update_my_list ⟨[], false, false⟩ 2 "remove").1 = [] ∧
    invalidationsOf (_update_my_list ⟨[], true, true⟩ 2 "remove").1 ≠ [] :=
  ⟨(mutation_invalidation_placement ⟨[], false, false⟩ "p1" 2 2 "remove").2.2.2.2.1
     rfl,
   ((mutation_invalidation_placement ⟨[], true, true⟩ "p1" 2 2 "remove").2.2.2.2.2
     rfl).1⟩

/-- C9: on the selective path the invalidations run in the fixed order
last-location, video-list 'queue' entry, common 'queue', common
'root_lists'; when resolving the 'queue' list id fails, the
`InvalidVideoListTypeError` propagates out of `add_to_list` /
`remove_from_list` after the post already happened, and every entry
invalidation after the last-location marker is skipped. -/
theorem update_my_list_queue_resolution :
    ∀ (env : ShaktiEnv) (vid : Int),
    env.postOk = true → env.invalidate_cache_on_mylist_modify = false →
    (∀ e, list_id_for_type env "queue" = Except.error e →
      add_to_list env vid =
        ([Effect.makeCall "update_my_list", Effect.invalidateLastLocation],
         Except.error e) ∧
      remove_from_list env vid =
        ([Effect.makeCall "update_my_list", Effect.invalidateLastLocation],
         Except.error e)) ∧
    (∀ qid, list_id_for_type env "queue" = Except.ok qid →
      add_to_list env vid =
        ([Effect.makeCall "update_my_list", Effect.invalidateLastLocation,
          Effect.invalidateEntry CACHE_VIDEO_LIST qid,
          Effect.invalidateEntry CACHE_COMMON "queue",
          Effect.invalidateEntry CACHE_COMMON "root_lists"],
         Except.ok ())) := by
  intro env vid hpost hflag
  constructor
  · intro e he
    constructor <;>
      simp [add_to_list, remove_from_list, _update_my_list, hpost, hflag, he]
  · intro qid hq
    simp [add_to_list, _update_my_list, hpost, hflag, hq]

/-- C9 witness: with no 'queue' list the error propagates after the post and
only the last-location invalidation ran; with a 'queue' list the four
invalidations run in order. -/
theorem update_my_list_queue_resolution_witness :
    add_to_list ⟨[], false, true⟩ 1 =
      ([Effect.makeCall "update_my_list", Effect.invalidateLastLocation],
       Except.error (ApiError.InvalidVideoListTypeError
         ("No lists of type " ++ "queue" ++ " available"))) ∧
    add_to_list ⟨[("mylist-id", "queue")], false, true⟩ 1 =
      ([Effect.makeCall "update_my_list", Effect.invalidateLastLocation,
        Effect.invalidateEntry CACHE_VIDEO_LIST "mylist-id",
        Effect.invalidateEntry CACHE_COMMON "queue",
        Effect.invalidateEntry CACHE_COMMON "root_lists"],
       Except.ok ()) :=
  ⟨((update_my_list_queue_resolution ⟨[], false, true⟩ 1 rfl rfl).1
      (ApiError.InvalidVideoListTypeError
        ("No lists of type " ++ "queue" ++ " available")) rfl).1,
   (update_my_list_queue_resolution ⟨[("mylist-id", "queue")], false, true⟩
      1 rfl rfl).2 "mylist-id" rfl⟩

/-- C2: `episode_metadata` runs the stale-cache recovery at most once and
never loops; when the optimistic lookup inside the (possibly cached)
aggregate fails, the metadata cache entry is invalidated and the aggregate
is refetched from the remote service exactly once more, after which the
result is the safe lookup in the fresh aggregate (the found episode or the
empty fallback); when the optimistic lookup succeeds there is no recovery. -/
theorem episode_metadata_one_retry :
    ∀ (env : MetaEnv) (c : Option VideoMeta) (t s e : String),
    (episode_metadata env c t s e).recoveries ≤ 1 ∧
    (episode_metadata env c t s e).fetches ≤ 2 ∧
    episode_metadata env c t s e =
      (match episodeLookup (metadata env c t).1 e with
       | some ep =>
           ⟨some ep, (metadata env c t).2.1, (metadata env c t).2.2, 0⟩
       | none =>
           ⟨safeEpisodeLookup (env.remote t) s e, some (env.remote t),
            (metadata env c t).2.2 + 1, 1⟩) := by
  intro env c t s e
  cases h : episodeLookup (metadata env c t).1 e <;>
    cases c <;> simp [episode_metadata, metadata] <;> simp [metadata] at h <;>
    simp [h]
